import Mathlib

/-
Verification of the btc-hunter CRM core: a shallow embedding of
`src/database.py` (OfferRepository), `src/openai_service.py`
(OfferInterpreter.interpret, post-call validation) and `src/service.py`
(BotService handlers), together with theorems settling the specification
claims.  Python floats are modelled as rationals; decoded JSON is an
inductive type; SQLite rows live in an explicit store state.
-/

set_option maxHeartbeats 1000000

namespace BtcHunter

/-- Exact rational numbers as unreduced fractions, standing in for Python
ints/floats.  `den` is positive at every construction site in this file;
comparisons cross-multiply, so no normalisation is ever needed and every
operation computes inside the kernel. -/
structure PyNum where
  num : Int
  den : Nat
deriving DecidableEq

/-- Embed an integer. -/
def PyNum.ofInt (n : Int) : PyNum := ⟨n, 1⟩

/-- Numeric equality (cross multiplication). -/
def PyNum.beq (a b : PyNum) : Bool :=
  a.num * (b.den : Int) == b.num * (a.den : Int)

instance : BEq PyNum := ⟨PyNum.beq⟩

/-- Numeric less-or-equal (cross multiplication; dens are positive). -/
def PyNum.le (a b : PyNum) : Bool :=
  a.num * (b.den : Int) ≤ b.num * (a.den : Int)

/-- Negation. -/
def PyNum.neg (a : PyNum) : PyNum := ⟨-a.num, a.den⟩

/-- Display rendering (used only in reply formatting, where the source
prints a Python float; the rendering of non-integers is approximate). -/
def PyNum.render (a : PyNum) : String :=
  if a.den == 1 then toString a.num else toString a.num ++ "/" ++ toString a.den

/-- Decoded JSON values, as produced by `json.loads`.  JSON numbers are
modelled as exact rationals (standing in for Python ints/floats). -/
inductive Json where
  | null
  | bool (b : Bool)
  | num (q : PyNum)
  | str (s : String)
  | arr (xs : List Json)
  | obj (fields : List (String × Json))

/-- Whether a decoded value is a JSON object (Python `isinstance(x, dict)`). -/
def Json.isObj : Json → Bool
  | .obj _ => true
  | _ => false

/-- Python truthiness of a decoded JSON value (`if x:`). -/
def truthy : Json → Bool
  | .null => false
  | .bool b => b
  | .num q => q != PyNum.ofInt 0
  | .str s => s != ""
  | .arr xs => !xs.isEmpty
  | .obj fs => !fs.isEmpty

/-- First binding of a key in a JSON object's field list. -/
def jlookup (fields : List (String × Json)) (k : String) : Option Json :=
  (fields.find? (fun p => p.1 == k)).map (fun p => p.2)

/-- Python `d.get(k)` on a decoded JSON object.  JSON `null` decodes to
Python `None`, which `get` also returns for an absent key, so the two
collapse.  Every call site in the source has already established that the
receiver is a dict, so the non-object case is never reached. -/
def pyGet (j : Json) (k : String) : Option Json :=
  match j with
  | .obj fs =>
    match jlookup fs k with
    | some .null => none
    | o => o
  | _ => none

/-- Truthiness of an optional value returned by `pyGet` (`if d.get(k):`). -/
def optTruthy (v : Option Json) : Bool :=
  match v with
  | none => false
  | some j => truthy j

/-- ASCII digit test. -/
def isDigitChar (c : Char) : Bool :=
  '0' ≤ c && c ≤ '9'

/-- Value of a digit string (most significant first). -/
def digitsVal (cs : List Char) : Nat :=
  cs.foldl (fun a c => a * 10 + (c.toNat - 48)) 0

/-- Unsigned part of Python `float(string)`: decimal literals `d+`, `d+.d*`,
`.d+`, `d*.d+`.  (Exponents, `inf`/`nan`, underscores and surrounding
whitespace are outside the modelled input domain; every string the claims
exercise is covered.) -/
def parseFloatChars (cs : List Char) : Option PyNum :=
  let ip := cs.takeWhile (fun c => c != '.')
  match cs.drop ip.length with
  | [] =>
    if !ip.isEmpty && ip.all isDigitChar then some (PyNum.ofInt (digitsVal ip))
    else none
  | _ :: fp =>
    if ip.all isDigitChar && fp.all isDigitChar && (!ip.isEmpty || !fp.isEmpty) then
      some ⟨(digitsVal ip : Int) * (10 : Int) ^ fp.length + (digitsVal fp : Int),
        (10 : Nat) ^ fp.length⟩
    else none

/-- Python `float(string)`; `none` means the call raises `ValueError`. -/
def parsePyFloat (s : String) : Option PyNum :=
  match s.data with
  | '+' :: cs => parseFloatChars cs
  | '-' :: cs => (parseFloatChars cs).map PyNum.neg
  | cs => parseFloatChars cs

/-- Python `float(x)` on a decoded JSON value; `none` means the call raises
(`ValueError` on a bad string, `TypeError` on list/dict/None). -/
def pyFloat : Json → Option PyNum
  | .num q => some q
  | .str s => parsePyFloat s
  | .bool b => some (PyNum.ofInt (if b then 1 else 0))
  | _ => none

/-- Local helper `safe_float` of `OfferRepository.save_offer`
(database.py lines 50-54): `float(value) if value is not None else None`,
with `TypeError`/`ValueError` absorbed into `None`. -/
def safe_float (v : Option Json) : Option PyNum :=
  match v with
  | none => none
  | some j => pyFloat j

/-- Unsigned part of Python `int(string)`. -/
def parseIntChars (cs : List Char) : Option Int :=
  if !cs.isEmpty && cs.all isDigitChar then some (digitsVal cs : Int) else none

/-- Python `int(string)`; `none` means the call raises `ValueError`. -/
def pyInt (s : String) : Option Int :=
  match s.data with
  | '+' :: cs => parseIntChars cs
  | '-' :: cs => (parseIntChars cs).map (fun n => -n)
  | cs => parseIntChars cs

/-- ASCII case folding of one character: SQLite's `lower()` and the default
ASCII-only case-insensitivity of its `LIKE` operator fold exactly the
characters `A`-`Z`; all other (e.g. Cyrillic) characters are untouched. -/
def asciiLowerChar (c : Char) : Char :=
  if 65 ≤ c.toNat ∧ c.toNat ≤ 90 then Char.ofNat (c.toNat + 32) else c

/-- ASCII case folding of a character list (SQLite `LOWER(X)` on text). -/
def asciiLower (cs : List Char) : List Char :=
  cs.map asciiLowerChar

/-- Python `str.lower()` on one character: full Unicode simple lowercasing,
modelled on the alphabets this repository's data uses (ASCII and Cyrillic,
including Ё); other characters are untouched. -/
def pyLowerChar (c : Char) : Char :=
  if 65 ≤ c.toNat ∧ c.toNat ≤ 90 then Char.ofNat (c.toNat + 32)
  else if 1040 ≤ c.toNat ∧ c.toNat ≤ 1071 then Char.ofNat (c.toNat + 32)
  else if c.toNat = 1025 then Char.ofNat 1105
  else c

/-- Python `str.lower()`. -/
def pyLower (s : String) : String :=
  String.mk (s.data.map pyLowerChar)

/-- Text rendering of a stored value, used where SQLite coerces a value to
text (`LOWER`) and where Python formats it into a reply string.  The claims
only exercise string values; the rendering of numbers is approximate. -/
def textOfJson : Json → String
  | .str s => s
  | .num q => q.render
  | .bool b => if b then "1" else "0"
  | .null => ""
  | .arr _ => ""
  | .obj _ => ""

/-- Try a predicate on every suffix of a list (including the list itself
and the empty suffix). -/
def tryDrops (f : List Char → Bool) : List Char → Bool
  | [] => f []
  | c :: ts => f (c :: ts) || tryDrops f ts

/-- SQLite `LIKE`: `%` matches any sequence, `_` any single character, and
ordinary characters compare ASCII-case-insensitively (the default
`case_sensitive_like` off behaviour).  First argument is the pattern. -/
def likeMatch : List Char → List Char → Bool
  | [], t => t.isEmpty
  | '%' :: ps, t => tryDrops (likeMatch ps) t
  | '_' :: _, [] => false
  | '_' :: ps, _ :: ts => likeMatch ps ts
  | _ :: _, [] => false
  | p :: ps, c :: ts => (asciiLowerChar p == asciiLowerChar c) && likeMatch ps ts

/-- Whether `hay` starts with `needle` (exact character equality). -/
def leadsWith : List Char → List Char → Bool
  | [], _ => true
  | _ :: _, [] => false
  | a :: as, b :: bs => (a == b) && leadsWith as bs

/-- Whether `needle` occurs contiguously inside `hay`. -/
def containsSeq (needle : List Char) : List Char → Bool
  | [] => needle.isEmpty
  | c :: hs => leadsWith needle (c :: hs) || containsSeq needle hs

/-- One row of the `offers` table (full column set after the additive
`kind`/`fee_percent` migration).  Free-text columns hold whatever decoded
value the payload supplied (`none` = SQL NULL); `fee_percent` is REAL. -/
structure OfferRecord where
  id : Nat
  raw_text : String
  country : Option Json
  method : Option Json
  fee : Option Json
  rate : Option Json
  limits : Option Json
  conditions : Option Json
  status : String
  created_at : String
  updated_at : String
  kind : Option Json
  fee_percent : Option PyNum

/-- The offers table: rows in insertion order plus the AUTOINCREMENT
counter (`nextId` is the rowid the next INSERT will receive). -/
structure OffersDb where
  rows : List OfferRecord
  nextId : Nat

/-- A freshly initialised database (AUTOINCREMENT starts at 1). -/
def emptyDb : OffersDb :=
  { rows := [], nextId := 1 }

/-- The row the INSERT of OfferRepository.save_offer writes (database.py
lines 57-80): the payload's fields via `parsed.get`, status `"new"`,
`created_at = updated_at = now` (the single `now` variable of the source),
`fee_percent` through `safe_float`. -/
def insertedRow (parsed : Json) (raw_text : String) (now : String) (id : Nat) :
    OfferRecord :=
  { id := id
    raw_text := raw_text
    country := pyGet parsed "country"
    method := pyGet parsed "method"
    fee := pyGet parsed "fee"
    rate := pyGet parsed "rate"
    limits := pyGet parsed "limits"
    conditions := pyGet parsed "conditions"
    status := "new"
    created_at := now
    updated_at := now
    kind := pyGet parsed "kind"
    fee_percent := safe_float (pyGet parsed "fee_percent") }

/-- OfferRepository.save_offer (database.py lines 47-82): INSERT one new
row and return `cursor.lastrowid`.  A non-dict payload raises
`AttributeError` at the first `parsed.get`. -/
def save_offer (parsed : Json) (raw_text : String) (now : String) (db : OffersDb) :
    Except String (OffersDb × Nat) :=
  match parsed with
  | .obj _ =>
    Except.ok
      ({ rows := db.rows ++ [insertedRow parsed raw_text now db.nextId],
         nextId := db.nextId + 1 }, db.nextId)
  | _ => Except.error "AttributeError: object has no attribute get"

/-- ORDER BY id DESC.  Ids are unique, so any sort realises the SQL
ordering; insertion sort keeps the model executable. -/
def sortByIdDesc (rows : List OfferRecord) : List OfferRecord :=
  List.insertionSort (fun a b => b.id ≤ a.id) rows

/-- OfferRepository.list_last_offers (database.py lines 84-95):
ORDER BY id DESC LIMIT ?.  The SQL projects a summary column subset; the
model returns whole rows, which claims only inspect columns of. -/
def list_last_offers (db : OffersDb) (limit : Nat) : List OfferRecord :=
  (sortByIdDesc db.rows).take limit

/-- OfferRepository.get_offer_by_id (database.py lines 97-109):
WHERE id = ? with fetchone; `none` models the no-row (not-found) result. -/
def get_offer_by_id (db : OffersDb) (offer_id : Int) : Option OfferRecord :=
  db.rows.find? (fun r => ((r.id : Int) == offer_id))

/-- The six parameterized predicates search_offers can append
(database.py lines 122-139), one constructor per `conditions.append` site. -/
inductive Cond where
  | countryLike
  | methodLike
  | statusEq
  | kindEq
  | feeGe
  | feeLe

/-- The exact SQL fragment appended to `conditions` for each criterion. -/
def Cond.sqlText : Cond → String
  | .countryLike => "LOWER(country) LIKE ?"
  | .methodLike => "LOWER(method) LIKE ?"
  | .statusEq => "status = ?"
  | .kindEq => "kind = ?"
  | .feeGe => "fee_percent >= ?"
  | .feeLe => "fee_percent <= ?"

/-- One `if country:`-style step for the LIKE criteria: a truthy value must
be a string (otherwise `.lower()` raises `AttributeError`); the bound
parameter is `f"%{value.lower()}%"`. -/
def pushLike (c : Cond) (v : Option Json) (acc : List (Cond × Json)) :
    Except String (List (Cond × Json)) :=
  match v with
  | none => Except.ok acc
  | some j =>
    if truthy j then
      match j with
      | .str s => Except.ok (acc ++ [(c, Json.str ("%" ++ pyLower s ++ "%"))])
      | _ => Except.error "AttributeError: object has no attribute lower"
    else Except.ok acc

/-- One `if status:`-style step for the equality criteria: the raw value is
bound as the parameter. -/
def pushEq (c : Cond) (v : Option Json) (acc : List (Cond × Json)) :
    List (Cond × Json) :=
  match v with
  | none => acc
  | some j => if truthy j then acc ++ [(c, j)] else acc

/-- One `if min_fee is not None:`-style step for the fee bounds: the value
goes through a bare `float()`, which raises on an unparsable value. -/
def pushFee (c : Cond) (v : Option Json) (acc : List (Cond × Json)) :
    Except String (List (Cond × Json)) :=
  match v with
  | none => Except.ok acc
  | some j =>
    match pyFloat j with
    | some q => Except.ok (acc ++ [(c, Json.num q)])
    | none => Except.error "ValueError: could not convert string to float"

/-- Filter-clause construction of OfferRepository.search_offers
(database.py lines 111-142): the six criteria are examined in source
order, each present one appending its SQL fragment and bound parameter;
the pair list zips the source's parallel `conditions` and `params` lists.
A non-dict filter object raises `AttributeError` at `filters.get`. -/
def buildSearchConds (filters : Json) : Except String (List (Cond × Json)) :=
  match filters with
  | .obj _ =>
    (pushLike Cond.countryLike (pyGet filters "country") []).bind fun a1 =>
    (pushLike Cond.methodLike (pyGet filters "method") a1).bind fun a2 =>
    (pushFee Cond.feeGe (pyGet filters "min_fee_percent")
        (pushEq Cond.kindEq (pyGet filters "kind")
          (pushEq Cond.statusEq (pyGet filters "status") a2))).bind fun a5 =>
    pushFee Cond.feeLe (pyGet filters "max_fee_percent") a5
  | _ => Except.error "AttributeError: object has no attribute get"

/-- The WHERE clause text:
`" AND ".join(conditions) if conditions else "1=1"`. -/
def whereClause (conds : List (Cond × Json)) : String :=
  let ts := conds.map (fun cp => cp.1.sqlText)
  if ts.isEmpty then "1=1" else String.intercalate " AND " ts

/-- The full SQL text issued by search_offers (database.py lines 146-152),
with the WHERE clause interpolated and everything else fixed. -/
def searchSqlText (conds : List (Cond × Json)) : String :=
  "SELECT id, country, method, fee, rate, status, kind, fee_percent FROM offers WHERE "
    ++ whereClause conds ++ " ORDER BY id DESC LIMIT ?"

/-- SQL equality of a stored value and a bound parameter.  SQLite compares
text with text and numbers with numbers; Python booleans are bound as the
integers 0/1; values of different storage classes are unequal. -/
def jsonSqlEq : Json → Json → Bool
  | .str a, .str b => a == b
  | .num a, .num b => a == b
  | .bool a, .num b => PyNum.ofInt (if a then 1 else 0) == b
  | .num a, .bool b => a == PyNum.ofInt (if b then 1 else 0)
  | .bool a, .bool b => a == b
  | _, _ => false

/-- Three-valued SQL evaluation of one condition against a row
(`none` = NULL, which WHERE treats as not-true). -/
def Cond.eval : Cond → Json → OfferRecord → Option Bool
  | .countryLike, p, r =>
    match r.country with
    | none => none
    | some v =>
      match p with
      | .str pat => some (likeMatch pat.data (asciiLower (textOfJson v).data))
      | _ => some false
  | .methodLike, p, r =>
    match r.method with
    | none => none
    | some v =>
      match p with
      | .str pat => some (likeMatch pat.data (asciiLower (textOfJson v).data))
      | _ => some false
  | .statusEq, p, r =>
    match p with
    | .str s2 => some (r.status == s2)
    | _ => some false
  | .kindEq, p, r =>
    match r.kind with
    | none => none
    | some v => some (jsonSqlEq v p)
  | .feeGe, p, r =>
    match r.fee_percent, p with
    | none, _ => none
    | some q, .num a => some (PyNum.le a q)
    | some _, _ => some false
  | .feeLe, p, r =>
    match r.fee_percent, p with
    | none, _ => none
    | some q, .num b => some (PyNum.le q b)
    | some _, _ => some false

/-- A row satisfies the WHERE clause iff every appended condition
evaluates to true (AND of three-valued conditions). -/
def rowMatches (conds : List (Cond × Json)) (r : OfferRecord) : Bool :=
  conds.all (fun cp => Cond.eval cp.1 cp.2 r == some true)

/-- OfferRepository.search_offers (database.py lines 111-155): build the
filter clause, then WHERE / ORDER BY id DESC / LIMIT. -/
def search_offers (filters : Json) (db : OffersDb) (limit : Nat) :
    Except String (List OfferRecord) :=
  (buildSearchConds filters).map fun conds =>
    (sortByIdDesc (db.rows.filter (rowMatches conds))).take limit

/-- OfferInterpreter.interpret, post-call validation (openai_service.py
lines 46-57).  The `json.loads` outcome is the input: `none` models
content that fails to parse, `some j` a successful parse to `j`.  A parse
failure or a non-object is re-raised as a RuntimeError (the spec's
InterpretationError); an object is returned unchanged. -/
def interpret (content : Option Json) : Except String Json :=
  match content with
  | none => Except.error "Не удалось распарсить JSON OpenAI"
  | some parsed =>
    if parsed.isObj then Except.ok parsed
    else Except.error "Не удалось распарсить JSON OpenAI: JSON is not an object"

/-- Reply sent before interpretation starts (service.py line 48). -/
def thinkingReply : String := "⏳ Думаю над запросом..."

/-- Catch-all error reply of handle_text (service.py lines 65-70): the
failure reason is included. -/
def errorReply (e : String) : String := "❌ Ошибка при обработке:\n" ++ e

/-- Clarification reply when the mode is neither offer nor search
(service.py lines 59-64; wording abbreviated, structure preserved). -/
def clarificationReply : String :=
  "Я не понял, это оффер или поиск 🤔\nПопробуй переформулировать или начни с чего-то вроде:\n— дай офферы по ...\n— или просто пришли оффер."

/-- Python `x or {}` applied to an optional decoded value
(service.py lines 156 and 182). -/
def pyOrEmptyDict (v : Option Json) : Json :=
  match v with
  | none => Json.obj []
  | some j => if truthy j then j else Json.obj []

/-- Python `value or "—"` rendering of an optional field in a reply. -/
def orDash (v : Option Json) : String :=
  match v with
  | none => "—"
  | some j => if truthy j then textOfJson j else "—"

/-- Optional `fee_percent` line of the offer confirmation
(service.py lines 171-173). -/
def feePercentLines (parsed : Json) : List String :=
  match pyGet parsed "fee_percent" with
  | none => []
  | some j => ["*Комиссия, %:* " ++ textOfJson j]

/-- Optional summary lines of the offer confirmation
(service.py lines 175-177). -/
def summaryLines (parsed : Json) : List String :=
  match pyGet parsed "short_summary" with
  | none => []
  | some j => if truthy j then ["", "_Краткое резюме:_ " ++ textOfJson j] else []

/-- Confirmation reply of _handle_offer_mode (service.py lines 159-179). -/
def offerSavedReply (parsed : Json) (offer_id : Nat) : String :=
  String.intercalate "\n"
    (["✅ Оффер сохранён. ID: *" ++ toString offer_id ++ "*",
      "",
      "*Тип:* " ++ orDash (pyGet parsed "kind"),
      "*Страна:* " ++ orDash (pyGet parsed "country"),
      "*Метод:* " ++ orDash (pyGet parsed "method"),
      "*Комиссия:* " ++ orDash (pyGet parsed "fee"),
      "*Курс:* " ++ orDash (pyGet parsed "rate"),
      "*Лимиты:* " ++ orDash (pyGet parsed "limits"),
      "*Условия:* " ++ orDash (pyGet parsed "conditions")]
     ++ feePercentLines parsed ++ summaryLines parsed)

/-- Fee display of a result line: prefer free-text `fee`, fall back to
`fee_percent` with a percent sign, then to a dash. -/
def rowFeeStr (r : OfferRecord) : String :=
  let fallback :=
    match r.fee_percent with
    | some q => q.render ++ "%"
    | none => "—"
  match r.fee with
  | some j => if truthy j then textOfJson j else fallback
  | none => fallback

/-- Rate display of a result line (`rate or 'курс ?'`). -/
def rowRateStr (r : OfferRecord) : String :=
  match r.rate with
  | some j => if truthy j then textOfJson j else "курс ?"
  | none => "курс ?"

/-- One search-result line (service.py lines 190-197). -/
def searchRowLine (r : OfferRecord) : String :=
  "ID *" ++ toString r.id ++ "* — [" ++ orDash r.kind ++ "] " ++ orDash r.country
    ++ " / " ++ orDash r.method ++ " / " ++ rowFeeStr r ++ " / " ++ rowRateStr r
    ++ " — _" ++ r.status ++ "_"

/-- Empty-result reply of _handle_search_mode (service.py line 186). -/
def noResultsReply : String := "Ничего не нашёл по этому запросу 🤷‍♂️"

/-- Non-empty search-result reply (service.py lines 189-199). -/
def searchResultsReply (rows : List OfferRecord) : String :=
  String.intercalate "\n" (["📋 *Результаты поиска:*", ""] ++ rows.map searchRowLine)

/-- BotService.handle_text (service.py lines 44-70).  The first argument is
the outcome of `await self.interpreter.interpret(text)`: `Except.error`
models an exception raised by the interpreter, which the surrounding
try/except of the source converts to an error reply, as it does every
exception raised by the store calls inside the branches.  Returns the new
store state and the replies sent, in order. -/
def handle_text (interp : Except String Json) (user_text : String) (now : String)
    (db : OffersDb) : OffersDb × List String :=
  match interp with
  | .error e => (db, [thinkingReply, errorReply e])
  | .ok data =>
    match pyGet data "mode" with
    | some (.str "offer") =>
      let parsed := pyOrEmptyDict (pyGet data "offer")
      match save_offer parsed user_text now db with
      | .ok (db2, oid) => (db2, [thinkingReply, offerSavedReply parsed oid])
      | .error e => (db, [thinkingReply, errorReply e])
    | some (.str "search") =>
      let filters := pyOrEmptyDict (pyGet data "search")
      match search_offers filters db 20 with
      | .ok rows =>
        (db, [thinkingReply, if rows.isEmpty then noResultsReply else searchResultsReply rows])
      | .error e => (db, [thinkingReply, errorReply e])
    | _ => (db, [thinkingReply, clarificationReply])

/-- Usage reply of handle_offer for a missing argument (service.py line 91). -/
def usageReply : String := "Использование: /offer <id>"

/-- Reply of handle_offer for a non-integer argument (service.py line 97). -/
def idNumberReply : String := "ID должен быть числом, пример: /offer 12"

/-- Not-found reply of handle_offer (service.py line 102). -/
def notFoundReply (offer_id : Int) : String :=
  "Оффер с ID " ++ toString offer_id ++ " не найден."

/-- Full offer card of handle_offer (service.py lines 105-143). -/
def offerDetailsReply (r : OfferRecord) : String :=
  String.intercalate "\n"
    ["📄 *Оффер ID " ++ toString r.id ++ "*",
     "Тип: _" ++ orDash r.kind ++ "_",
     "Статус: _" ++ r.status ++ "_",
     "",
     "*Страна:* " ++ orDash r.country,
     "*Метод:* " ++ orDash r.method,
     "*Комиссия:* " ++ rowFeeStr r,
     "*Курс:* " ++ orDash r.rate,
     "*Лимиты:* " ++ orDash r.limits,
     "*Условия:* " ++ orDash r.conditions,
     "",
     "*Создан:* " ++ r.created_at,
     "*Обновлён:* " ++ r.updated_at,
     "",
     "*Исходный текст:*",
     r.raw_text]

/-- BotService.handle_offer (service.py lines 89-143): `/offer <id>`.
Returns the list of ids actually looked up in the store (empty when the
argument check fails before any store access) and the reply sent. -/
def handle_offer (args : List String) (db : OffersDb) : List Int × String :=
  match args with
  | [] => ([], usageReply)
  | a :: _ =>
    match pyInt a with
    | none => ([], idNumberReply)
    | some i =>
      match get_offer_by_id db i with
      | none => ([i], notFoundReply i)
      | some r => ([i], offerDetailsReply r)

theorem tryDrops_iff (f : List Char → Bool) (t : List Char) :
    tryDrops f t = true ↔ ∃ k, f (t.drop k) = true := by
  induction t with
  | nil =>
    constructor
    · intro h
      exact ⟨0, h⟩
    · rintro ⟨k, hk⟩
      simpa using hk
  | cons c ts ih =>
    simp only [tryDrops, Bool.or_eq_true]
    constructor
    · intro h
      rcases h with h | h
      · exact ⟨0, h⟩
      · rcases ih.mp h with ⟨k, hk⟩
        exact ⟨k + 1, hk⟩
    · rintro ⟨k, hk⟩
      cases k with
      | zero => exact Or.inl hk
      | succ k => exact Or.inr (ih.mpr ⟨k, hk⟩)

theorem likeMatch_pct (ps t : List Char) :
    likeMatch ('%' :: ps) t = tryDrops (likeMatch ps) t := by
  cases t <;> rfl

theorem likeMatch_cons_nil (c : Char) (ps : List Char) (hc : c ≠ '%') :
    likeMatch (c :: ps) [] = false := by
  rw [likeMatch.eq_def]
  split <;> simp_all

theorem likeMatch_cons_cons (c d : Char) (ps ts : List Char)
    (hc : c ≠ '%') (hu : c ≠ '_') :
    likeMatch (c :: ps) (d :: ts)
      = ((asciiLowerChar c == asciiLowerChar d) && likeMatch ps ts) := by
  rw [likeMatch.eq_def]
  split <;> simp_all

theorem leadsWith_nil (n : List Char) : leadsWith n [] = n.isEmpty := by
  cases n <;> rfl

theorem containsSeq_eq_tryDrops (n h : List Char) :
    containsSeq n h = tryDrops (leadsWith n) h := by
  induction h with
  | nil => cases n <;> rfl
  | cons c hs ih => simp [containsSeq, tryDrops, ih]

theorem likeMatch_pct_any (t : List Char) : likeMatch ['%'] t = true := by
  induction t with
  | nil => rfl
  | cons c ts ih =>
    rw [likeMatch_pct]
    show (likeMatch [] (c :: ts) || tryDrops (likeMatch []) ts) = true
    rw [← likeMatch_pct, ih]
    simp

theorem likeMatch_lit :
    ∀ (p : List Char), (∀ c ∈ p, c ≠ '%' ∧ c ≠ '_') →
      ∀ t, likeMatch (p ++ ['%']) t = leadsWith (asciiLower p) (asciiLower t) := by
  intro p
  induction p with
  | nil =>
    intro _ t
    simp [asciiLower, leadsWith, likeMatch_pct_any]
  | cons c cs ih =>
    intro hp t
    have hc := hp c (List.mem_cons_self c cs)
    cases t with
    | nil =>
      rw [show (c :: cs) ++ ['%'] = c :: (cs ++ ['%']) from rfl,
        likeMatch_cons_nil _ _ hc.1]
      simp [asciiLower, leadsWith]
    | cons d ts =>
      rw [show (c :: cs) ++ ['%'] = c :: (cs ++ ['%']) from rfl,
        likeMatch_cons_cons _ _ _ _ hc.1 hc.2]
      simp only [asciiLower, List.map_cons, leadsWith]
      rw [show List.map asciiLowerChar cs = asciiLower cs from rfl,
        show List.map asciiLowerChar ts = asciiLower ts from rfl,
        ih (fun x hx => hp x (List.mem_cons_of_mem c hx)) ts]

theorem likeMatch_pct_lit (p : List Char) (hp : ∀ c ∈ p, c ≠ '%' ∧ c ≠ '_')
    (t : List Char) :
    likeMatch ('%' :: (p ++ ['%'])) t = containsSeq (asciiLower p) (asciiLower t) := by
  rw [likeMatch_pct, containsSeq_eq_tryDrops]
  induction t with
  | nil =>
    show likeMatch (p ++ ['%']) [] = leadsWith (asciiLower p) (asciiLower [])
    exact likeMatch_lit p hp []
  | cons c ts ih =>
    show (likeMatch (p ++ ['%']) (c :: ts) || tryDrops (likeMatch (p ++ ['%'])) ts)
      = (leadsWith (asciiLower p) (asciiLower (c :: ts))
          || tryDrops (leadsWith (asciiLower p)) (asciiLower ts))
    rw [likeMatch_lit p hp (c :: ts), ih]

theorem asciiLowerChar_idem (c : Char) :
    asciiLowerChar (asciiLowerChar c) = asciiLowerChar c := by
  by_cases h : 65 ≤ c.toNat ∧ c.toNat ≤ 90
  · rw [show asciiLowerChar c = Char.ofNat (c.toNat + 32) from if_pos h]
    obtain ⟨h1, h2⟩ := h
    set n := c.toNat with hn
    interval_cases n <;> decide
  · simp [asciiLowerChar, h]

theorem asciiLower_idem (l : List Char) : asciiLower (asciiLower l) = asciiLower l := by
  induction l with
  | nil => rfl
  | cons c cs ih =>
    simp only [asciiLower, List.map_cons] at ih ⊢
    rw [asciiLowerChar_idem, ih]

/-- Which of the six criteria are present in a filter, exactly as the
source tests presence: truthiness for the four string criteria, an
`is not None` test for the two fee bounds. -/
def presentFlags (filters : Json) : List Bool :=
  [optTruthy (pyGet filters "country"), optTruthy (pyGet filters "method"),
   optTruthy (pyGet filters "status"), optTruthy (pyGet filters "kind"),
   (pyGet filters "min_fee_percent").isSome, (pyGet filters "max_fee_percent").isSome]

theorem pushLike_fst (c : Cond) (v : Option Json) (acc out : List (Cond × Json))
    (h : pushLike c v acc = Except.ok out) :
    out.map Prod.fst = acc.map Prod.fst ++ (if optTruthy v then [c] else []) := by
  cases v with
  | none =>
    simp only [pushLike, Except.ok.injEq] at h
    subst h
    simp [optTruthy]
  | some j =>
    by_cases ht : truthy j
    · cases j <;> simp [pushLike, ht] at h <;> subst h <;> simp [optTruthy, ht]
    · simp only [pushLike, if_neg ht, Except.ok.injEq] at h
      subst h
      simp [optTruthy, ht]

theorem pushEq_fst (c : Cond) (v : Option Json) (acc : List (Cond × Json)) :
    (pushEq c v acc).map Prod.fst
      = acc.map Prod.fst ++ (if optTruthy v then [c] else []) := by
  cases v with
  | none => simp [pushEq, optTruthy]
  | some j =>
    by_cases ht : truthy j <;> simp [pushEq, optTruthy, ht]

theorem pushFee_fst (c : Cond) (v : Option Json) (acc out : List (Cond × Json))
    (h : pushFee c v acc = Except.ok out) :
    out.map Prod.fst = acc.map Prod.fst ++ (if v.isSome then [c] else []) := by
  cases v with
  | none =>
    simp only [pushFee, Except.ok.injEq] at h
    subst h
    simp
  | some j =>
    cases hf : pyFloat j with
    | none => simp [pushFee, hf] at h
    | some q =>
      simp only [pushFee, hf, Except.ok.injEq] at h
      subst h
      simp

theorem buildSearchConds_fst (filters : Json) (conds : List (Cond × Json))
    (h : buildSearchConds filters = Except.ok conds) :
    conds.map Prod.fst =
      (if optTruthy (pyGet filters "country") then [Cond.countryLike] else [])
      ++ (if optTruthy (pyGet filters "method") then [Cond.methodLike] else [])
      ++ (if optTruthy (pyGet filters "status") then [Cond.statusEq] else [])
      ++ (if optTruthy (pyGet filters "kind") then [Cond.kindEq] else [])
      ++ (if (pyGet filters "min_fee_percent").isSome then [Cond.feeGe] else [])
      ++ (if (pyGet filters "max_fee_percent").isSome then [Cond.feeLe] else []) := by
  cases filters with
  | obj fs =>
    simp only [buildSearchConds] at h
    cases h1 : pushLike Cond.countryLike (pyGet (Json.obj fs) "country") [] with
    | error e => rw [h1] at h; simp [Except.bind] at h
    | ok a1 =>
      rw [h1] at h
      simp only [Except.bind] at h
      cases h2 : pushLike Cond.methodLike (pyGet (Json.obj fs) "method") a1 with
      | error e => rw [h2] at h; simp at h
      | ok a2 =>
        rw [h2] at h
        simp only at h
        cases h5 : pushFee Cond.feeGe (pyGet (Json.obj fs) "min_fee_percent")
            (pushEq Cond.kindEq (pyGet (Json.obj fs) "kind")
              (pushEq Cond.statusEq (pyGet (Json.obj fs) "status") a2)) with
        | error e => rw [h5] at h; simp at h
        | ok a5 =>
          rw [h5] at h
          simp only at h
          have e1 := pushLike_fst _ _ _ _ h1
          have e2 := pushLike_fst _ _ _ _ h2
          have e3 := pushEq_fst Cond.statusEq (pyGet (Json.obj fs) "status") a2
          have e4 := pushEq_fst Cond.kindEq (pyGet (Json.obj fs) "kind")
            (pushEq Cond.statusEq (pyGet (Json.obj fs) "status") a2)
          have e5 := pushFee_fst _ _ _ _ h5
          have e6 := pushFee_fst _ _ _ _ h
          rw [e6, e5, e4, e3, e2, e1]
          simp [List.append_assoc]
  | null => simp [buildSearchConds] at h
  | bool b => simp [buildSearchConds] at h
  | num q => simp [buildSearchConds] at h
  | str s => simp [buildSearchConds] at h
  | arr xs => simp [buildSearchConds] at h

theorem searchSqlText_congr (c1 c2 : List (Cond × Json))
    (h : c1.map Prod.fst = c2.map Prod.fst) : searchSqlText c1 = searchSqlText c2 := by
  have hts : c1.map (fun cp => cp.1.sqlText) = c2.map (fun cp => cp.1.sqlText) := by
    have := congrArg (List.map Cond.sqlText) h
    simpa [List.map_map, Function.comp] using this
  unfold searchSqlText whereClause
  rw [hts]

theorem mem_search_rows (conds : List (Cond × Json)) (db : OffersDb) (lim : Nat)
    (h : db.rows.length ≤ lim) (r : OfferRecord) :
    r ∈ (sortByIdDesc (db.rows.filter (rowMatches conds))).take lim
      ↔ r ∈ db.rows ∧ rowMatches conds r = true := by
  have hlen : (sortByIdDesc (db.rows.filter (rowMatches conds))).length ≤ lim := by
    rw [sortByIdDesc, (List.perm_insertionSort _ _).length_eq]
    exact Nat.le_trans (List.length_filter_le _ _) h
  rw [List.take_of_length_le hlen, sortByIdDesc, List.mem_insertionSort, List.mem_filter]

/-- A filter whose `min_fee_percent` is the unparsable string `"cheap"`,
used to exhibit the bare `float()` coercion of search_offers. -/
def c10Filters : Json := Json.obj [("min_fee_percent", Json.str "cheap")]

/-- C10: search_offers is not total over arbitrary filter values — with
`min_fee_percent = "cheap"` the bare `float()` coercion raises instead of
absorbing the value, unlike the write-time `safe_float` coercion of
save_offer, which maps the same value to absent without raising. -/
theorem search_min_fee_not_total :
    search_offers c10Filters emptyDb 20
      = Except.error "ValueError: could not convert string to float"
    ∧ safe_float (some (Json.str "cheap")) = none :=
  ⟨rfl, rfl⟩

/-- C3 counterexample: content that parses to the object `{"offer": {}}`
has no `mode` discriminator, yet interpret returns it successfully instead
of raising — so interpret does not validate the presence of `mode`. -/
theorem interpret_missing_mode_counterexample :
    interpret (some (Json.obj [("offer", Json.obj [])]))
      = Except.ok (Json.obj [("offer", Json.obj [])])
    ∧ pyGet (Json.obj [("offer", Json.obj [])]) "mode" = none :=
  ⟨rfl, rfl⟩

/-- C3 amended: interpret raises a hard failure whenever the content fails
to parse as JSON or parses to a non-object, and otherwise returns the
object unchanged without guessing a mode; presence of the `mode`
discriminator is not validated by interpret (a mode-less object flows to
the dispatcher's unrecognized branch). -/
theorem interpret_shape_validation :
    (∃ e, interpret none = Except.error e)
    ∧ (∀ j : Json, j.isObj = false → ∃ e, interpret (some j) = Except.error e)
    ∧ ∀ fields, interpret (some (Json.obj fields)) = Except.ok (Json.obj fields) := by
  refine ⟨⟨_, rfl⟩, ?_, fun fields => rfl⟩
  intro j hj
  exact ⟨"Не удалось распарсить JSON OpenAI: JSON is not an object",
    by simp [interpret, hj]⟩

/-- C3 amended, witness: non-object content fails, an object is returned
unchanged. -/
theorem interpret_shape_validation_witness :
    (∃ e, interpret (some (Json.str "plain text")) = Except.error e)
    ∧ interpret (some (Json.obj [("mode", Json.str "offer")]))
        = Except.ok (Json.obj [("mode", Json.str "offer")]) :=
  ⟨interpret_shape_validation.2.1 (Json.str "plain text") rfl,
   interpret_shape_validation.2.2 [("mode", Json.str "offer")]⟩

/-- C8: save_offer never fails because of the `fee_percent` value — the
insert succeeds for every payload, the stored `fee_percent` is the
`safe_float` coercion (absent whenever `float()` would raise, e.g. on
`"unknown"`), and every other column holds the payload's value
unchanged. -/
theorem save_offer_fee_percent_total (fields : List (String × Json))
    (raw_text now : String) (db : OffersDb) :
    ∃ db2, save_offer (Json.obj fields) raw_text now db = Except.ok (db2, db.nextId)
      ∧ db2.rows = db.rows ++ [insertedRow (Json.obj fields) raw_text now db.nextId]
      ∧ (∀ j, pyGet (Json.obj fields) "fee_percent" = some j → pyFloat j = none →
          (insertedRow (Json.obj fields) raw_text now db.nextId).fee_percent = none)
      ∧ pyFloat (Json.str "unknown") = none := by
  refine ⟨_, rfl, rfl, ?_, rfl⟩
  intro j hj hf
  show safe_float (pyGet (Json.obj fields) "fee_percent") = none
  rw [hj]
  exact hf

/-- C8 witness: the payload `{"country": "RU", "fee_percent": "unknown"}`
is persisted with `fee_percent` absent and `country` intact. -/
theorem save_offer_fee_percent_total_witness :
    ∃ db2, save_offer (Json.obj [("country", Json.str "RU"), ("fee_percent", Json.str "unknown")])
        "сырой текст" "t0" emptyDb = Except.ok (db2, 1)
      ∧ db2.rows.map (fun r => r.fee_percent) = [none]
      ∧ db2.rows.map (fun r => r.country) = [some (Json.str "RU")] := by
  obtain ⟨db2, h1, h2, _, _⟩ := save_offer_fee_percent_total
    [("country", Json.str "RU"), ("fee_percent", Json.str "unknown")] "сырой текст" "t0" emptyDb
  refine ⟨db2, h1, ?_, ?_⟩ <;> rw [h2] <;> rfl

/-- C9: handle_offer replies with the usage message on a missing argument
and the non-integer message on an unparsable argument, in both cases
touching the store not at all; a well-formed id with no matching row gets
the not-found reply, which differs from every storage-fault error reply. -/
theorem handle_offer_arg_and_notfound (db : OffersDb) :
    handle_offer [] db = ([], usageReply)
    ∧ (∀ a rest, pyInt a = none → handle_offer (a :: rest) db = ([], idNumberReply))
    ∧ (∀ a rest i, pyInt a = some i → get_offer_by_id db i = none →
        handle_offer (a :: rest) db = ([i], notFoundReply i))
    ∧ ∀ i e, notFoundReply i ≠ errorReply e := by
  refine ⟨rfl, ?_, ?_, ?_⟩
  · intro a rest h
    simp [handle_offer, h]
  · intro a rest i h1 h2
    simp [handle_offer, h1, h2]
  · intro i e heq
    have h1 : (notFoundReply i).data.head? = some 'О' := rfl
    have h2 : (errorReply e).data.head? = some '❌' := rfl
    rw [heq] at h1
    rw [h1] at h2
    exact absurd (Option.some.inj h2) (by decide)

/-- C9 witness: concrete invocations against the empty store. -/
theorem handle_offer_arg_and_notfound_witness :
    handle_offer [] emptyDb = ([], usageReply)
    ∧ handle_offer ["abc"] emptyDb = ([], idNumberReply)
    ∧ handle_offer ["999"] emptyDb = ([999], notFoundReply 999)
    ∧ notFoundReply 999 ≠ errorReply "disk I/O error" := by
  obtain ⟨w1, w2, w3, w4⟩ := handle_offer_arg_and_notfound emptyDb
  exact ⟨w1, w2 "abc" [] rfl, w3 "999" [] 999 rfl rfl, w4 999 "disk I/O error"⟩

/-- C7: when the filter contributes no condition, search_offers succeeds
and returns rows in the same id-descending order as list_last_offers with
the same limit (the empty conjunction rejects nothing). -/
theorem search_empty_filter_eq_list_recent (filters : Json) (db : OffersDb)
    (lim : Nat) (h : buildSearchConds filters = Except.ok []) :
    ∃ rows, search_offers filters db lim = Except.ok rows
      ∧ rows.map (fun r => r.id) = (list_last_offers db lim).map (fun r => r.id) := by
  have hfilter : db.rows.filter (rowMatches []) = db.rows :=
    List.filter_eq_self.mpr (fun a _ => rfl)
  have hs : search_offers filters db lim
      = Except.ok ((sortByIdDesc (db.rows.filter (rowMatches []))).take lim) := by
    rw [search_offers, h]
    rfl
  rw [hs, hfilter]
  exact ⟨_, rfl, rfl⟩

/-- A two-row store exercising the empty-filter search. -/
def c7Db : OffersDb :=
  ⟨[⟨1, "a", none, none, none, none, none, none, "new", "t1", "t1", none, none⟩,
    ⟨2, "b", some (Json.str "IN"), none, none, none, none, none, "new", "t2", "t2",
      none, some ⟨7, 1⟩⟩], 3⟩

/-- C7 witness: the empty filter object against a two-row store. -/
theorem search_empty_filter_eq_list_recent_witness :
    ∃ rows, search_offers (Json.obj []) c7Db 10 = Except.ok rows
      ∧ rows.map (fun r => r.id) = (list_last_offers c7Db 10).map (fun r => r.id) :=
  search_empty_filter_eq_list_recent (Json.obj []) c7Db 10 rfl

/-- C2: the SQL text issued by search_offers depends only on which of the
six criteria are present (presence exactly as the source tests it), never
on the criterion values, which travel only in the bound-parameter list —
a two-run noninterference statement over the query construction. -/
theorem search_query_text_noninterference (f1 f2 : Json)
    (c1 c2 : List (Cond × Json))
    (h1 : buildSearchConds f1 = Except.ok c1)
    (h2 : buildSearchConds f2 = Except.ok c2)
    (hp : presentFlags f1 = presentFlags f2) :
    searchSqlText c1 = searchSqlText c2 := by
  apply searchSqlText_congr
  rw [buildSearchConds_fst f1 c1 h1, buildSearchConds_fst f2 c2 h2]
  simp only [presentFlags, List.cons.injEq, and_true] at hp
  obtain ⟨e1, e2, e3, e4, e5, e6⟩ := hp
  rw [e1, e2, e3, e4, e5, e6]

/-- C2 witness: two filters with the same present criterion (country) but
different untrusted values produce the identical SQL text. -/
theorem search_query_text_noninterference_witness :
    searchSqlText [(Cond.countryLike, Json.str "%india%")]
      = searchSqlText [(Cond.countryLike, Json.str "%рф; drop table offers%")] :=
  search_query_text_noninterference
    (Json.obj [("country", Json.str "India")])
    (Json.obj [("country", Json.str "РФ; DROP TABLE offers")])
    _ _ rfl rfl rfl

/-- A payload whose `fee_percent` is present but not parseable as a
number. -/
def c1FailPayload : Json :=
  Json.obj [("country", Json.str "RU"), ("fee_percent", Json.str "unknown")]

/-- C1 counterexample: with `fee_percent` present as the string
`"unknown"`, create followed by get_by_id yields a record whose
`fee_percent` is absent, so a present field does not equal the input
value — the round-trip claim fails as stated for this payload. -/
theorem create_then_get_fee_counterexample :
    pyGet c1FailPayload "fee_percent" = some (Json.str "unknown")
    ∧ save_offer c1FailPayload "RU SBP вход" "t0" emptyDb
        = Except.ok (⟨[insertedRow c1FailPayload "RU SBP вход" "t0" 1], 2⟩, 1)
    ∧ get_offer_by_id ⟨[insertedRow c1FailPayload "RU SBP вход" "t0" 1], 2⟩ 1
        = some (insertedRow c1FailPayload "RU SBP вход" "t0" 1)
    ∧ (insertedRow c1FailPayload "RU SBP вход" "t0" 1).fee_percent = none :=
  ⟨rfl, rfl, rfl, rfl⟩

/-- C1 amended: for every object payload whose `fee_percent`, when
present, is a numeric value, create followed by get_by_id on the returned
id yields a record whose present fields exactly equal the input values,
whose absent fields are uniformly absent, whose status is `"new"`, and
whose `created_at` equals `updated_at` (both the single insertion
timestamp).  The id-bound hypothesis is the AUTOINCREMENT invariant of the
store. -/
theorem create_then_get_roundtrip (parsed : Json) (fields : List (String × Json))
    (raw_text now : String) (db : OffersDb)
    (hobj : parsed = Json.obj fields)
    (hraw : raw_text ≠ "")
    (hids : ∀ r ∈ db.rows, r.id < db.nextId)
    (hfee : ∀ j, pyGet parsed "fee_percent" = some j → ∃ q, j = Json.num q) :
    ∃ db2 oid,
      save_offer parsed raw_text now db = Except.ok (db2, oid)
      ∧ get_offer_by_id db2 (oid : Int) = some (insertedRow parsed raw_text now oid)
      ∧ (insertedRow parsed raw_text now oid).raw_text = raw_text
      ∧ (insertedRow parsed raw_text now oid).country = pyGet parsed "country"
      ∧ (insertedRow parsed raw_text now oid).method = pyGet parsed "method"
      ∧ (insertedRow parsed raw_text now oid).fee = pyGet parsed "fee"
      ∧ (insertedRow parsed raw_text now oid).rate = pyGet parsed "rate"
      ∧ (insertedRow parsed raw_text now oid).limits = pyGet parsed "limits"
      ∧ (insertedRow parsed raw_text now oid).conditions = pyGet parsed "conditions"
      ∧ (insertedRow parsed raw_text now oid).kind = pyGet parsed "kind"
      ∧ (pyGet parsed "fee_percent" = none →
          (insertedRow parsed raw_text now oid).fee_percent = none)
      ∧ (∀ q, pyGet parsed "fee_percent" = some (Json.num q) →
          (insertedRow parsed raw_text now oid).fee_percent = some q)
      ∧ (insertedRow parsed raw_text now oid).status = "new"
      ∧ (insertedRow parsed raw_text now oid).created_at = now
      ∧ (insertedRow parsed raw_text now oid).updated_at = now := by
  subst hobj
  refine ⟨_, db.nextId, rfl, ?_, rfl, rfl, rfl, rfl, rfl, rfl, rfl, rfl, ?_, ?_,
    rfl, rfl, rfl⟩
  · show (db.rows ++ [insertedRow (Json.obj fields) raw_text now db.nextId]).find?
        (fun r => ((r.id : Int) == (db.nextId : Int))) = _
    rw [List.find?_append]
    have hnone : db.rows.find? (fun r => ((r.id : Int) == (db.nextId : Int))) = none := by
      rw [List.find?_eq_none]
      intro x hx
      have hlt := hids x hx
      simp only [beq_iff_eq, Int.natCast_inj]
      omega
    rw [hnone]
    simp [List.find?, insertedRow]
  · intro hn
    show safe_float (pyGet (Json.obj fields) "fee_percent") = none
    rw [hn]
    rfl
  · intro q hq
    show safe_float (pyGet (Json.obj fields) "fee_percent") = some q
    rw [hq]
    rfl

/-- The offer payload of the specification's round-trip scenario. -/
def c1ScenarioPayload : Json :=
  Json.obj [("country", Json.str "RU"), ("method", Json.str "SBP"),
    ("fee", Json.str "1.8%"), ("kind", Json.str "channel"),
    ("fee_percent", Json.num ⟨9, 5⟩)]

/-- C1 amended, witness: the specification scenario — create against the
empty store returns id 1, and get_by_id(1) round-trips all fields. -/
theorem create_then_get_roundtrip_witness :
    ∃ db2 oid,
      save_offer c1ScenarioPayload "RU SBP вход 1.8% курс 98" "t0" emptyDb
        = Except.ok (db2, oid)
      ∧ get_offer_by_id db2 (oid : Int)
          = some (insertedRow c1ScenarioPayload "RU SBP вход 1.8% курс 98" "t0" oid)
      ∧ (insertedRow c1ScenarioPayload "RU SBP вход 1.8% курс 98" "t0" oid).raw_text
          = "RU SBP вход 1.8% курс 98"
      ∧ (insertedRow c1ScenarioPayload "RU SBP вход 1.8% курс 98" "t0" oid).country
          = pyGet c1ScenarioPayload "country"
      ∧ (insertedRow c1ScenarioPayload "RU SBP вход 1.8% курс 98" "t0" oid).method
          = pyGet c1ScenarioPayload "method"
      ∧ (insertedRow c1ScenarioPayload "RU SBP вход 1.8% курс 98" "t0" oid).fee
          = pyGet c1ScenarioPayload "fee"
      ∧ (insertedRow c1ScenarioPayload "RU SBP вход 1.8% курс 98" "t0" oid).rate
          = pyGet c1ScenarioPayload "rate"
      ∧ (insertedRow c1ScenarioPayload "RU SBP вход 1.8% курс 98" "t0" oid).limits
          = pyGet c1ScenarioPayload "limits"
      ∧ (insertedRow c1ScenarioPayload "RU SBP вход 1.8% курс 98" "t0" oid).conditions
          = pyGet c1ScenarioPayload "conditions"
      ∧ (insertedRow c1ScenarioPayload "RU SBP вход 1.8% курс 98" "t0" oid).kind
          = pyGet c1ScenarioPayload "kind"
      ∧ (pyGet c1ScenarioPayload "fee_percent" = none →
          (insertedRow c1ScenarioPayload "RU SBP вход 1.8% курс 98" "t0" oid).fee_percent
            = none)
      ∧ (∀ q, pyGet c1ScenarioPayload "fee_percent" = some (Json.num q) →
          (insertedRow c1ScenarioPayload "RU SBP вход 1.8% курс 98" "t0" oid).fee_percent
            = some q)
      ∧ (insertedRow c1ScenarioPayload "RU SBP вход 1.8% курс 98" "t0" oid).status = "new"
      ∧ (insertedRow c1ScenarioPayload "RU SBP вход 1.8% курс 98" "t0" oid).created_at = "t0"
      ∧ (insertedRow c1ScenarioPayload "RU SBP вход 1.8% курс 98" "t0" oid).updated_at
          = "t0" := by
  apply create_then_get_roundtrip c1ScenarioPayload
    [("country", Json.str "RU"), ("method", Json.str "SBP"), ("fee", Json.str "1.8%"),
     ("kind", Json.str "channel"), ("fee_percent", Json.num ⟨9, 5⟩)]
    "RU SBP вход 1.8% курс 98" "t0" emptyDb rfl (by decide) (by intro r hr; cases hr)
  intro j hj
  exact ⟨⟨9, 5⟩, (Option.some.inj hj).symm⟩

/-- C4: handle_text always produces at least one reply (every exception
from the interpreter or the store is caught inside it, so the embedding is
a total function); an interpreter failure yields exactly the progress
reply followed by an error reply carrying the failure reason, with the
store unchanged; a store failure inside the search or offer branch yields
the same error-reply shape, again with the store unchanged. -/
theorem handle_text_catches_errors (interp : Except String Json)
    (user_text now : String) (db : OffersDb) :
    (handle_text interp user_text now db).2 ≠ []
    ∧ (∀ e, interp = Except.error e →
        handle_text interp user_text now db = (db, [thinkingReply, errorReply e]))
    ∧ (∀ data e, interp = Except.ok data →
        pyGet data "mode" = some (Json.str "search") →
        search_offers (pyOrEmptyDict (pyGet data "search")) db 20 = Except.error e →
        handle_text interp user_text now db = (db, [thinkingReply, errorReply e]))
    ∧ (∀ data e, interp = Except.ok data →
        pyGet data "mode" = some (Json.str "offer") →
        save_offer (pyOrEmptyDict (pyGet data "offer")) user_text now db = Except.error e →
        handle_text interp user_text now db = (db, [thinkingReply, errorReply e])) := by
  refine ⟨?_, ?_, ?_, ?_⟩
  · cases interp with
    | error e => simp [handle_text]
    | ok data =>
      simp only [handle_text]
      split <;> (try split) <;> simp
  · intro e he
    subst he
    rfl
  · intro data e hi hm hs
    subst hi
    simp [handle_text, hm, hs]
  · intro data e hi hm hsave
    subst hi
    simp [handle_text, hm, hsave]

/-- C4 witness: an interpreter failure with reason `"boom"` against a
one-row store leaves the store unchanged and produces the error reply. -/
theorem handle_text_catches_errors_witness :
    (handle_text (Except.error "boom") "текст" "t1" c7Db).2 ≠ []
    ∧ handle_text (Except.error "boom") "текст" "t1" c7Db
        = (c7Db, [thinkingReply, errorReply "boom"]) := by
  obtain ⟨w1, w2, _, _⟩ := handle_text_catches_errors (Except.error "boom") "текст" "t1" c7Db
  exact ⟨w1, w2 "boom" rfl⟩

theorem rowMatches_fee_le (b : PyNum) (r : OfferRecord) :
    rowMatches [(Cond.feeLe, Json.num b)] r = true
      ↔ ∃ q, r.fee_percent = some q ∧ PyNum.le q b = true := by
  cases hfp : r.fee_percent <;> simp [rowMatches, Cond.eval, hfp]

theorem rowMatches_fee_ge (a : PyNum) (r : OfferRecord) :
    rowMatches [(Cond.feeGe, Json.num a)] r = true
      ↔ ∃ q, r.fee_percent = some q ∧ PyNum.le a q = true := by
  cases hfp : r.fee_percent <;> simp [rowMatches, Cond.eval, hfp]

theorem rowMatches_fee_both (a b : PyNum) (r : OfferRecord) :
    rowMatches [(Cond.feeGe, Json.num a), (Cond.feeLe, Json.num b)] r = true
      ↔ ∃ q, r.fee_percent = some q ∧ PyNum.le a q = true ∧ PyNum.le q b = true := by
  cases hfp : r.fee_percent <;> simp [rowMatches, Cond.eval, hfp]

/-- C5: for a filter that sets `min_fee_percent` and/or `max_fee_percent`
(numerically) and no other criterion, search returns exactly the stored
records whose `fee_percent` is present and inside the bounds, both bounds
inclusive; records with `fee_percent` absent or outside a bound are
excluded.  The limit hypothesis keeps the LIMIT clause from truncating. -/
theorem search_fee_bounds (filters : Json) (fields : List (String × Json))
    (db : OffersDb) (lim : Nat) (minq maxq : Option PyNum)
    (hobj : filters = Json.obj fields)
    (hc : pyGet filters "country" = none)
    (hm : pyGet filters "method" = none)
    (hs : pyGet filters "status" = none)
    (hk : pyGet filters "kind" = none)
    (hmin : pyGet filters "min_fee_percent" = minq.map Json.num)
    (hmax : pyGet filters "max_fee_percent" = maxq.map Json.num)
    (hone : minq.isSome = true ∨ maxq.isSome = true)
    (hlim : db.rows.length ≤ lim) :
    ∃ rows, search_offers filters db lim = Except.ok rows
      ∧ ∀ r, r ∈ rows ↔ r ∈ db.rows ∧ ∃ q, r.fee_percent = some q
          ∧ (∀ a, minq = some a → PyNum.le a q = true)
          ∧ (∀ b, maxq = some b → PyNum.le q b = true) := by
  subst hobj
  rcases minq with _ | a <;> rcases maxq with _ | b
  · simp at hone
  · have hb2 : buildSearchConds (Json.obj fields)
        = Except.ok [(Cond.feeLe, Json.num b)] := by
      simp [buildSearchConds, hc, hm, hs, hk, hmin, hmax, pushLike, pushEq, pushFee,
        pyFloat, Except.bind]
    refine ⟨_, by rw [search_offers, hb2]; rfl, ?_⟩
    intro r
    rw [mem_search_rows _ _ _ hlim, rowMatches_fee_le]
    constructor
    · rintro ⟨hr, q, hq, hle⟩
      refine ⟨hr, q, hq, ?_, ?_⟩
      · intro a' ha'
        cases ha'
      · intro b' hb'
        injection hb' with h
        subst h
        exact hle
    · rintro ⟨hr, q, hq, _, hleb⟩
      exact ⟨hr, q, hq, hleb b rfl⟩
  · have hb2 : buildSearchConds (Json.obj fields)
        = Except.ok [(Cond.feeGe, Json.num a)] := by
      simp [buildSearchConds, hc, hm, hs, hk, hmin, hmax, pushLike, pushEq, pushFee,
        pyFloat, Except.bind]
    refine ⟨_, by rw [search_offers, hb2]; rfl, ?_⟩
    intro r
    rw [mem_search_rows _ _ _ hlim, rowMatches_fee_ge]
    constructor
    · rintro ⟨hr, q, hq, hle⟩
      refine ⟨hr, q, hq, ?_, ?_⟩
      · intro a' ha'
        injection ha' with h
        subst h
        exact hle
      · intro b' hb'
        cases hb'
    · rintro ⟨hr, q, hq, hlea, _⟩
      exact ⟨hr, q, hq, hlea a rfl⟩
  · have hb2 : buildSearchConds (Json.obj fields)
        = Except.ok [(Cond.feeGe, Json.num a), (Cond.feeLe, Json.num b)] := by
      simp [buildSearchConds, hc, hm, hs, hk, hmin, hmax, pushLike, pushEq, pushFee,
        pyFloat, Except.bind]
    refine ⟨_, by rw [search_offers, hb2]; rfl, ?_⟩
    intro r
    rw [mem_search_rows _ _ _ hlim, rowMatches_fee_both]
    constructor
    · rintro ⟨hr, q, hq, hga, hlb⟩
      refine ⟨hr, q, hq, ?_, ?_⟩
      · intro a' ha'
        injection ha' with h
        subst h
        exact hga
      · intro b' hb'
        injection hb' with h
        subst h
        exact hlb
    · rintro ⟨hr, q, hq, hlea, hleb⟩
      exact ⟨hr, q, hq, hlea a rfl, hleb b rfl⟩

/-- The specification's fee-bound scenario store: `fee_percent` values
5.0, 12.0 and absent. -/
def c5Db : OffersDb :=
  ⟨[⟨1, "a", none, none, none, none, none, none, "new", "t1", "t1", none, some ⟨5, 1⟩⟩,
    ⟨2, "b", none, none, none, none, none, none, "new", "t2", "t2", none, some ⟨12, 1⟩⟩,
    ⟨3, "c", none, none, none, none, none, none, "new", "t3", "t3", none, none⟩], 4⟩

/-- C5 witness: `search({max_fee_percent: 11.0})` against the scenario
store characterises exactly the records with present, in-bound fee. -/
theorem search_fee_bounds_witness :
    ∃ rows, search_offers (Json.obj [("max_fee_percent", Json.num ⟨11, 1⟩)]) c5Db 20
        = Except.ok rows
      ∧ ∀ r, r ∈ rows ↔ r ∈ c5Db.rows ∧ ∃ q, r.fee_percent = some q
          ∧ (∀ a, (none : Option PyNum) = some a → PyNum.le a q = true)
          ∧ (∀ b, (some ⟨11, 1⟩ : Option PyNum) = some b → PyNum.le q b = true) :=
  search_fee_bounds (Json.obj [("max_fee_percent", Json.num ⟨11, 1⟩)])
    [("max_fee_percent", Json.num ⟨11, 1⟩)] c5Db 20 none (some ⟨11, 1⟩)
    rfl rfl rfl rfl rfl rfl rfl (Or.inr rfl) (by decide)

theorem eval_countryLike (fv : String)
    (hwild : ∀ c ∈ (pyLower fv).data, c ≠ '%' ∧ c ≠ '_') (r : OfferRecord)
    (hdb : ∀ j, r.country = some j → ∃ s, j = Json.str s) :
    (Cond.eval Cond.countryLike (Json.str ("%" ++ pyLower fv ++ "%")) r == some true) = true
      ↔ ∃ s, r.country = some (Json.str s)
          ∧ containsSeq (asciiLower (pyLower fv).data) (asciiLower s.data) = true := by
  cases hcty : r.country with
  | none => simp [Cond.eval, hcty]
  | some j =>
    obtain ⟨s, rfl⟩ := hdb j hcty
    have hdata : ("%" ++ pyLower fv ++ "%").data
        = '%' :: ((pyLower fv).data ++ ['%']) := rfl
    simp only [Cond.eval, hcty, textOfJson]
    rw [hdata, likeMatch_pct_lit _ hwild, asciiLower_idem]
    simp

theorem eval_methodLike (fv : String)
    (hwild : ∀ c ∈ (pyLower fv).data, c ≠ '%' ∧ c ≠ '_') (r : OfferRecord)
    (hdb : ∀ j, r.method = some j → ∃ s, j = Json.str s) :
    (Cond.eval Cond.methodLike (Json.str ("%" ++ pyLower fv ++ "%")) r == some true) = true
      ↔ ∃ s, r.method = some (Json.str s)
          ∧ containsSeq (asciiLower (pyLower fv).data) (asciiLower s.data) = true := by
  cases hmth : r.method with
  | none => simp [Cond.eval, hmth]
  | some j =>
    obtain ⟨s, rfl⟩ := hdb j hmth
    have hdata : ("%" ++ pyLower fv ++ "%").data
        = '%' :: ((pyLower fv).data ++ ['%']) := rfl
    simp only [Cond.eval, hmth, textOfJson]
    rw [hdata, likeMatch_pct_lit _ hwild, asciiLower_idem]
    simp

theorem rowMatches_one (cp : Cond × Json) (r : OfferRecord) :
    rowMatches [cp] r = true ↔ (Cond.eval cp.1 cp.2 r == some true) = true := by
  simp [rowMatches]

theorem rowMatches_two (cp1 cp2 : Cond × Json) (r : OfferRecord) :
    rowMatches [cp1, cp2] r = true
      ↔ (Cond.eval cp1.1 cp1.2 r == some true) = true
        ∧ (Cond.eval cp2.1 cp2.2 r == some true) = true := by
  simp [rowMatches]

/-- C6 amended: country/method matching is substring containment that is
case-insensitive for ASCII letters only — for a filter setting a country
and/or a method criterion (non-empty, free of LIKE wildcards) and nothing
else, a record is returned iff, for each criterion set, the stored value
with ASCII letters folded contains the filter value after Python
lowercasing (with ASCII folded).  Non-ASCII (e.g. Cyrillic) letters are
compared exactly, because SQLite's LOWER and LIKE fold only ASCII while
`.lower()` on the filter side folds all of Unicode; a filter value
containing `%` or `_` is read as LIKE wildcards, not as literal
characters. -/
theorem country_method_match_ascii_ci (filters : Json) (fields : List (String × Json))
    (db : OffersDb) (lim : Nat) (cv mv : Option String)
    (hobj : filters = Json.obj fields)
    (hcv : pyGet filters "country" = cv.map Json.str)
    (hmv : pyGet filters "method" = mv.map Json.str)
    (hone : cv.isSome = true ∨ mv.isSome = true)
    (hcw : ∀ s, cv = some s → s ≠ "" ∧ ∀ c ∈ (pyLower s).data, c ≠ '%' ∧ c ≠ '_')
    (hmw : ∀ s, mv = some s → s ≠ "" ∧ ∀ c ∈ (pyLower s).data, c ≠ '%' ∧ c ≠ '_')
    (hs : pyGet filters "status" = none)
    (hk : pyGet filters "kind" = none)
    (hmin : pyGet filters "min_fee_percent" = none)
    (hmax : pyGet filters "max_fee_percent" = none)
    (hlim : db.rows.length ≤ lim)
    (hdbc : ∀ r ∈ db.rows, ∀ j, r.country = some j → ∃ s, j = Json.str s)
    (hdbm : ∀ r ∈ db.rows, ∀ j, r.method = some j → ∃ s, j = Json.str s) :
    ∃ rows, search_offers filters db lim = Except.ok rows
      ∧ ∀ r, r ∈ rows ↔ r ∈ db.rows
          ∧ (∀ s, cv = some s → ∃ t, r.country = some (Json.str t)
              ∧ containsSeq (asciiLower (pyLower s).data) (asciiLower t.data) = true)
          ∧ (∀ s, mv = some s → ∃ t, r.method = some (Json.str t)
              ∧ containsSeq (asciiLower (pyLower s).data) (asciiLower t.data) = true) := by
  subst hobj
  rcases cv with _ | s1 <;> rcases mv with _ | s2
  · simp at hone
  · obtain ⟨hne2, hw2⟩ := hmw s2 rfl
    have hb2 : buildSearchConds (Json.obj fields)
        = Except.ok [(Cond.methodLike, Json.str ("%" ++ pyLower s2 ++ "%"))] := by
      simp [buildSearchConds, hcv, hmv, hs, hk, hmin, hmax, pushLike, pushEq, pushFee,
        Except.bind, truthy, hne2]
    refine ⟨_, by rw [search_offers, hb2]; rfl, ?_⟩
    intro r
    rw [mem_search_rows _ _ _ hlim, rowMatches_one]
    constructor
    · rintro ⟨hr, hmt⟩
      refine ⟨hr, ?_, ?_⟩
      · intro s hc
        cases hc
      · intro s hc
        injection hc with h
        subst h
        exact (eval_methodLike s2 hw2 r (fun j hj => hdbm r hr j hj)).mp hmt
    · rintro ⟨hr, _, hex⟩
      exact ⟨hr, (eval_methodLike s2 hw2 r (fun j hj => hdbm r hr j hj)).mpr (hex s2 rfl)⟩
  · obtain ⟨hne1, hw1⟩ := hcw s1 rfl
    have hb2 : buildSearchConds (Json.obj fields)
        = Except.ok [(Cond.countryLike, Json.str ("%" ++ pyLower s1 ++ "%"))] := by
      simp [buildSearchConds, hcv, hmv, hs, hk, hmin, hmax, pushLike, pushEq, pushFee,
        Except.bind, truthy, hne1]
    refine ⟨_, by rw [search_offers, hb2]; rfl, ?_⟩
    intro r
    rw [mem_search_rows _ _ _ hlim, rowMatches_one]
    constructor
    · rintro ⟨hr, hmt⟩
      refine ⟨hr, ?_, ?_⟩
      · intro s hc
        injection hc with h
        subst h
        exact (eval_countryLike s1 hw1 r (fun j hj => hdbc r hr j hj)).mp hmt
      · intro s hc
        cases hc
    · rintro ⟨hr, hex, _⟩
      exact ⟨hr, (eval_countryLike s1 hw1 r (fun j hj => hdbc r hr j hj)).mpr (hex s1 rfl)⟩
  · obtain ⟨hne1, hw1⟩ := hcw s1 rfl
    obtain ⟨hne2, hw2⟩ := hmw s2 rfl
    have hb2 : buildSearchConds (Json.obj fields)
        = Except.ok [(Cond.countryLike, Json.str ("%" ++ pyLower s1 ++ "%")),
            (Cond.methodLike, Json.str ("%" ++ pyLower s2 ++ "%"))] := by
      simp [buildSearchConds, hcv, hmv, hs, hk, hmin, hmax, pushLike, pushEq, pushFee,
        Except.bind, truthy, hne1, hne2]
    refine ⟨_, by rw [search_offers, hb2]; rfl, ?_⟩
    intro r
    rw [mem_search_rows _ _ _ hlim, rowMatches_two]
    constructor
    · rintro ⟨hr, hmc, hmm⟩
      refine ⟨hr, ?_, ?_⟩
      · intro s hc
        injection hc with h
        subst h
        exact (eval_countryLike s1 hw1 r (fun j hj => hdbc r hr j hj)).mp hmc
      · intro s hc
        injection hc with h
        subst h
        exact (eval_methodLike s2 hw2 r (fun j hj => hdbm r hr j hj)).mp hmm
    · rintro ⟨hr, hexc, hexm⟩
      exact ⟨hr,
        (eval_countryLike s1 hw1 r (fun j hj => hdbc r hr j hj)).mpr (hexc s1 rfl),
        (eval_methodLike s2 hw2 r (fun j hj => hdbm r hr j hj)).mpr (hexm s2 rfl)⟩

/-- A store holding one record whose country is the uppercase Cyrillic
string `"РФ"`. -/
def c6CyrDb : OffersDb :=
  ⟨[⟨1, "x", some (Json.str "РФ"), none, none, none, none, none, "new", "t1", "t1",
    none, none⟩], 2⟩

/-- A store holding one record whose country is `"RU"`. -/
def c6WildDb : OffersDb :=
  ⟨[⟨1, "y", some (Json.str "RU"), none, none, none, none, none, "new", "t1", "t1",
    none, none⟩], 2⟩

/-- C6 counterexample, refuting the claimed iff in both directions.
First: the stored country `"РФ"` lowercases (in Python's Unicode sense)
to exactly the filter value `"рф"`, so the claimed case-insensitive
containment holds, yet search returns no rows — the storage engine folds
only ASCII.  Second: the filter value `"r%u"` is not contained in the
lowercased stored value `"ru"`, yet search returns the row, because `%`
acts as a LIKE wildcard rather than a literal character. -/
theorem country_match_semantics_counterexample :
    (c6CyrDb.rows.map (fun r => r.country)) = [some (Json.str "РФ")]
    ∧ containsSeq (pyLower "рф").data (pyLower "РФ").data = true
    ∧ search_offers (Json.obj [("country", Json.str "рф")]) c6CyrDb 20 = Except.ok []
    ∧ (c6WildDb.rows.map (fun r => r.country)) = [some (Json.str "RU")]
    ∧ containsSeq (pyLower "r%u").data (pyLower "RU").data = false
    ∧ search_offers (Json.obj [("country", Json.str "r%u")]) c6WildDb 20
        = Except.ok c6WildDb.rows :=
  ⟨rfl, rfl, rfl, rfl, rfl, rfl⟩

/-- A store holding one record whose country is `"India"` and whose
method is `"SBP"`. -/
def c6IndiaDb : OffersDb :=
  ⟨[⟨1, "x", some (Json.str "India"), some (Json.str "SBP"), none, none, none, none,
    "new", "t1", "t1", none, none⟩], 2⟩

/-- C6 amended, witness: a filter setting both criteria — country value
`"india"` and method value `"sbp"` against a store with country `"India"`
and method `"SBP"`. -/
theorem country_method_match_ascii_ci_witness :
    ∃ rows, search_offers
        (Json.obj [("country", Json.str "india"), ("method", Json.str "sbp")])
        c6IndiaDb 20 = Except.ok rows
      ∧ ∀ r, r ∈ rows ↔ r ∈ c6IndiaDb.rows
          ∧ (∀ s, (some "india" : Option String) = some s →
              ∃ t, r.country = some (Json.str t)
                ∧ containsSeq (asciiLower (pyLower s).data) (asciiLower t.data) = true)
          ∧ (∀ s, (some "sbp" : Option String) = some s →
              ∃ t, r.method = some (Json.str t)
                ∧ containsSeq (asciiLower (pyLower s).data) (asciiLower t.data) = true) := by
  apply country_method_match_ascii_ci
    (Json.obj [("country", Json.str "india"), ("method", Json.str "sbp")])
    [("country", Json.str "india"), ("method", Json.str "sbp")]
    c6IndiaDb 20 (some "india") (some "sbp") rfl rfl rfl (Or.inl rfl)
    (by intro s hs2; injection hs2 with h; subst h; exact ⟨by decide, by decide⟩)
    (by intro s hs2; injection hs2 with h; subst h; exact ⟨by decide, by decide⟩)
    rfl rfl rfl rfl (by decide)
  · intro r hr j hj
    have hr2 : r = ⟨1, "x", some (Json.str "India"), some (Json.str "SBP"), none, none,
        none, none, "new", "t1", "t1", none, none⟩ := by
      simpa [c6IndiaDb] using hr
    subst hr2
    refine ⟨"India", ?_⟩
    injection hj with h
    exact h.symm
  · intro r hr j hj
    have hr2 : r = ⟨1, "x", some (Json.str "India"), some (Json.str "SBP"), none, none,
        none, none, "new", "t1", "t1", none, none⟩ := by
      simpa [c6IndiaDb] using hr
    subst hr2
    refine ⟨"SBP", ?_⟩
    injection hj with h
    exact h.symm
